import Mathlib

/-!
Task Board API (`api/server.js`): startup gating, origin policy and HTTP responders.

A shallow embedding of `server.js`.  JavaScript values that the file touches are
modelled by `JSValue`; observable actions (console output, timers, calling
`app.listen`, invoking the CORS callback) are recorded as a list of `Effect`s; code
that can raise runs in `Run`, a writer of effects with an exceptional result.
A call of `app.listen` that returns has not yet bound anything: whether the bind
then succeeds is a separate outcome, `Listen`.
-/

namespace TaskBoard

/-! ## JavaScript values and errors -/

/-- Primitive JavaScript values occurring in `server.js`. -/
inductive JSValue
  | undefined
  | null
  | bool (b : Bool)
  | num (n : Int)
  | str (s : String)
  deriving DecidableEq, Repr

/-- Truthiness, as used by `!x` and `x || y`. -/
def JSValue.truthy : JSValue → Bool
  | .undefined => false
  | .null => false
  | .bool b => b
  | .num n => n != 0
  | .str s => s != ""

/-- The operator `a || b`. -/
def JSValue.or (a b : JSValue) : JSValue :=
  if a.truthy then a else b

/-- String conversion as performed inside a template literal. -/
def JSValue.render : JSValue → String
  | .undefined => "undefined"
  | .null => "null"
  | .bool b => if b then "true" else "false"
  | .num n => toString n
  | .str s => s

/-- An `Error` object: only `message` and `stack` are read by `server.js`. -/
structure JSError where
  message : String
  stack : String
  deriving DecidableEq, Repr

/-- The part of `process.env` read by `server.js`; `none` is an unset variable. -/
structure ProcessEnv where
  PORT : Option String
  NODE_ENV : Option String
  deriving DecidableEq, Repr

/-- A string that may be absent (an unset environment variable, a missing request
header); the absent string reads as `undefined`. -/
def envVar : Option String → JSValue
  | none => .undefined
  | some s => .str s

/-- Line 15: `const PORT = process.env.PORT || 3000`. -/
def PORT (env : ProcessEnv) : JSValue :=
  (envVar env.PORT).or (.num 3000)

/-- The expression `process.env.NODE_ENV || 'development'` (lines 76 and 145). -/
def environment (env : ProcessEnv) : JSValue :=
  (envVar env.NODE_ENV).or (.str "development")

/-- The descriptor returned by `healthCheck()`; an absent property reads as `undefined`. -/
structure HealthStatus where
  status : JSValue
  database : JSValue
  error : JSValue
  deriving DecidableEq, Repr

/-! ## Effects and runs -/

/-- Functions passed to `setTimeout` in `server.js`. -/
inductive Callback
  | startServer
  deriving DecidableEq, Repr

/-- Observable actions of the code, in program order. -/
inductive Effect
  /-- The call `console.log(...args)`. -/
  | consoleLog (args : List JSValue)
  /-- The call `console.error(...args)`. -/
  | consoleError (args : List JSValue)
  /-- The call `setTimeout(callback, delay)`. -/
  | setTimeout (callback : Callback) (delay : Nat)
  /-- The call `app.listen(port, host, cb)` was made with these arguments and returned;
  `onListening` lists the `console.log` calls `cb` makes if the bind then succeeds. -/
  | listen (port : JSValue) (host : String) (onListening : List (List JSValue))
  /-- The call `callback(err, allow)` made by the origin function of `corsOptions`. -/
  | callback (err : Option JSError) (allow : Bool)
  deriving DecidableEq, Repr

/-- A computation that performs effects and either returns or raises. -/
structure Run (α : Type) where
  result : Except JSError α
  effects : List Effect

/-- Return a value without effects. -/
def Run.pure {α : Type} (a : α) : Run α := ⟨.ok a, []⟩

/-- Sequencing: effects accumulate; an exception skips the continuation. -/
def Run.bind {α β : Type} (m : Run α) (f : α → Run β) : Run β :=
  match m.result with
  | .error e => ⟨.error e, m.effects⟩
  | .ok a => ⟨(f a).result, m.effects ++ (f a).effects⟩

instance : Monad Run where
  pure := Run.pure
  bind := Run.bind

/-- Perform one effect. -/
def Run.emit (e : Effect) : Run Unit := ⟨.ok (), [e]⟩

/-- The expression `await p`, where the promise `p` settles to `r`. -/
def Run.await {α : Type} (r : Except JSError α) : Run α := ⟨r, []⟩

/-- What a call `app.listen(port, host, cb)` does. -/
inductive Listen
  /-- It raises synchronously (for instance a port out of range). -/
  | throws (e : JSError)
  /-- It returns, the bind then succeeds and `cb` runs: the listener is bound. -/
  | listening
  /-- It returns, and the bind then fails with an `error` event (for instance the port is
  in use); `server.js` registers no listener for it, and nothing is bound. -/
  | errorEvent (e : JSError)
  deriving DecidableEq, Repr

/-- Whether the call raises synchronously. -/
def Listen.raises : Listen → Bool
  | .throws _ => true
  | _ => false

/-- The call itself: it raises or returns; what follows a return is not part of the call. -/
def Run.call : Listen → Run Unit
  | .throws e => ⟨.error e, []⟩
  | _ => ⟨.ok (), []⟩

/-- The statement `try { body } catch (error) { handler error }`. -/
def Run.tryCatch {α : Type} (body : Run α) (handler : JSError → Run α) : Run α :=
  match body.result with
  | .ok _ => body
  | .error e => ⟨(handler e).result, body.effects ++ (handler e).effects⟩

/-! ## Startup (lines 126-154) -/

/-- What the collaborators do during one invocation of `startServer`. -/
structure World where
  /-- The outcome of `await healthCheck()`: a descriptor, or a rejection. -/
  healthCheck : Except JSError HealthStatus
  /-- What the call of `app.listen` does, when it is made. -/
  listen : Listen

/-- The `console.log` calls of the callback given to `app.listen` (lines 140-146). -/
def onListening (env : ProcessEnv) (dbHealth : HealthStatus) : List (List JSValue) :=
  [ [.str "========================================="],
    [.str "🚀 Task Board API Started (Railway Ready)"],
    [.str "========================================="],
    [.str ("📡 Server running on port " ++ (PORT env).render)],
    [.str ("🗄️  Database: " ++ dbHealth.database.render)],
    [.str ("🌍 Environment: " ++ (environment env).render)],
    [.str "========================================="] ]

/-- Lines 126-152: `const startServer = async () => { try { ... } catch (error) { ... } }`. -/
def startServer (env : ProcessEnv) (w : World) : Run Unit :=
  Run.tryCatch
    (do
      let dbHealth ← Run.await w.healthCheck
      if dbHealth.status ≠ .str "healthy" then do
        Run.emit (.consoleError [.str "❌ Database connection failed:", dbHealth.error])
        Run.emit (.consoleLog [.str "⏳ Waiting for database... (Retry in 5s)"])
        Run.emit (.setTimeout .startServer 5000)
      else do
        Run.call w.listen
        Run.emit (.listen (PORT env) "0.0.0.0" (onListening env dbHealth)))
    (fun error => do
      Run.emit (.consoleError [.str "❌ Failed to start server:", .str error.message])
      Run.emit (.setTimeout .startServer 5000))

/-- The `(port, host)` arguments of the calls of `app.listen` that returned. -/
def calls : List Effect → List (JSValue × String)
  | [] => []
  | .listen port host _ :: es => (port, host) :: calls es
  | _ :: es => calls es

/-- The calls of `app.listen`, by their arguments, that left a listener bound: those that
returned, provided the bind then succeeded. -/
def bound (w : World) (effects : List Effect) : List (JSValue × String) :=
  match w.listen with
  | .listening => calls effects
  | _ => []

/-- The delays of the `setTimeout(startServer, delay)` calls in a list of effects. -/
def retries : List Effect → List Nat
  | [] => []
  | .setTimeout .startServer delay :: es => delay :: retries es
  | _ :: es => retries es

/-- The arguments of the `console.error` calls in a list of effects. -/
def errorLogs : List Effect → List (List JSValue)
  | [] => []
  | .consoleError args :: es => args :: errorLogs es
  | _ :: es => errorLogs es

/-- The `(err, allow)` arguments of the origin callback calls in a list of effects. -/
def callbacks : List Effect → List (Option JSError × Bool)
  | [] => []
  | .callback err allow :: es => (err, allow) :: callbacks es
  | _ :: es => callbacks es

/-- The arguments of the `console.log` calls in a list of effects. -/
def logs : List Effect → List (List JSValue)
  | [] => []
  | .consoleLog args :: es => args :: logs es
  | _ :: es => logs es

/-! ## Origin policy (lines 22-51) -/

/-- An entry of `allowedOrigins`: a string, or a regular expression of the form
`/literal$/` (literal characters followed by the end-of-input anchor). -/
inductive Allowed
  | string (s : String)
  | regExp (literal : String)
  deriving DecidableEq, Repr

/-- The method `/literal$/.test(s)`: some start position `i` exists at which the literal
matches and is followed by the end of `s`. -/
def regExpTest (literal s : String) : Bool :=
  (List.range (s.data.length + 1)).any fun i => s.data.drop i == literal.data

/-- Lines 27-33: the array `allowedOrigins`. -/
def allowedOrigins : List Allowed :=
  [ .string "http://localhost:3000",
    .string "http://localhost:8080",
    .string "http://localhost:5500",
    .string "http://127.0.0.1:5500",
    .regExp ".railway.app" ]

/-- Lines 35-38: `allowedOrigins.some(allowed => ...)`. -/
def isAllowed (origin : String) : Bool :=
  allowedOrigins.any fun allowed =>
    match allowed with
    | .regExp literal => regExpTest literal origin
    | .string s => s == origin

/-- Lines 23-47: the function `corsOptions.origin`, given `req.headers.origin`. -/
def corsOptions.origin (origin : Option String) : List Effect :=
  if !(envVar origin).truthy then [.callback none true]
  else
    match origin with
    | none => [.callback none true]
    | some o =>
      if isAllowed o then [.callback none true]
      else
        [ .consoleLog [.str "⚠️ CORS Warning (Development): Allow blocked origin:", .str o],
          .callback none true ]

/-- The allow-list as the specification words it: one of four literal origins, or any
origin ending with the suffix `.railway.app`. -/
def Spec.MatchesAllowList (origin : String) : Prop :=
  origin = "http://localhost:3000" ∨ origin = "http://localhost:8080" ∨
  origin = "http://localhost:5500" ∨ origin = "http://127.0.0.1:5500" ∨
  ".railway.app".data <:+ origin.data

/-! ## HTTP surface (lines 53-120) -/

/-- A value handed to `res.json`. -/
inductive JSON
  | value (v : JSValue)
  /-- The health descriptor object itself. -/
  | descriptor (d : HealthStatus)
  | object (fields : List (String × JSON))

/-- The own keys of an object, in insertion order. -/
def JSON.keys : JSON → List String
  | .object fields => fields.map Prod.fst
  | _ => []

/-- Property lookup on an object. -/
def JSON.get? : JSON → String → Option JSON
  | .object fields, k => (fields.find? fun kv => kv.1 == k).map Prod.snd
  | _, _ => none

/-- A response: status code and the JSON body (`none` when the body is not JSON).
Headers are not modelled. -/
structure Response where
  status : Nat
  body : Option JSON

/-- An incoming request. Node reports the method in upper case and header names in
lower case. -/
structure Request where
  method : String
  url : String
  headers : List (String × String)
  body : String

/-- The expression `req.headers.origin`. -/
def Request.origin (req : Request) : Option String :=
  (req.headers.find? fun h => h.1 == "origin").map Prod.snd

/-- How a middleware or route handler finishes. -/
inductive Outcome
  /-- It sends a response. -/
  | respond (r : Response)
  /-- It calls `next()`. -/
  | next
  /-- It calls `next(err)`, or raises synchronously. -/
  | error (e : JSError)
  /-- It is an async function whose promise rejects with `e`. -/
  | rejected (e : JSError)
  /-- It neither responds nor calls `next`. -/
  | pending

/-- The effects of a handler together with how it finishes. -/
structure Handled where
  effects : List Effect
  outcome : Outcome

/-- Behaviour of the `express` package that `server.js` relies on but does not define. -/
structure Express where
  /-- Whether a rejected promise returned by a handler is passed to `next` (Express 5)
  or left unhandled (Express 4). -/
  forwardsRejections : Bool
  /-- Whether a route registered by `app.get(path, ...)` matches the request. -/
  matchesGet : String → Request → Bool
  /-- Whether a middleware mounted by `app.use(path, ...)` matches the request. -/
  matchesMount : String → Request → Bool
  /-- The error `express.json()` passes to `next` for the request, if any. -/
  json : Request → Option JSError
  /-- The error `express.urlencoded({ extended: true })` passes to `next`, if any. -/
  urlencoded : Request → Option JSError
  /-- The response sent when the middleware stack is exhausted. -/
  finalhandler : Option JSError → Request → Response

/-- What the collaborators of the request handlers do during one request. -/
structure Services where
  /-- The outcome of `await healthCheck()`. -/
  healthCheck : Except JSError HealthStatus
  /-- The value of `new Date().toISOString()`. -/
  now : String
  /-- The router exported by `./src/routes/taskRoutes`. -/
  taskRoutes : Request → Handled

/-- Line 53: the middleware `cors(corsOptions)` of the `cors` package with its default
`preflightContinue: false` and `optionsSuccessStatus: 204`: it consults the origin
function; when permitted it ends an `OPTIONS` request itself with 204 and passes every
other request on. -/
def cors (origin : Option String → List Effect) (req : Request) : Handled :=
  let effects := origin req.origin
  match callbacks effects with
  | [] => ⟨effects, .pending⟩
  | (some err, _) :: _ => ⟨effects, .error err⟩
  | (none, false) :: _ => ⟨effects, .next⟩
  | (none, true) :: _ =>
    if req.method == "OPTIONS" then ⟨effects, .respond ⟨204, none⟩⟩
    else ⟨effects, .next⟩

/-- Lines 57-58: a body parser either passes an error on or calls `next()`. -/
def bodyParser (parse : Request → Option JSError) (req : Request) : Handled :=
  match parse req with
  | some e => ⟨[], .error e⟩
  | none => ⟨[], .next⟩

/-- Line 61: `morgan('combined')` calls `next()`; its access-log line is not modelled. -/
def morgan (_req : Request) : Handled := ⟨[], .next⟩

/-- Lines 68-79: the handler of `GET /api/health`. -/
def healthHandler (env : ProcessEnv) (s : Services) (_req : Request) : Handled :=
  match s.healthCheck with
  | .error e => ⟨[], .rejected e⟩
  | .ok dbHealth =>
    let healthy : Bool := dbHealth.status == .str "healthy"
    ⟨[], .respond
      { status := if healthy then 200 else 503
        body := some (.object
          [ ("status", .value (.str (if healthy then "healthy" else "unhealthy"))),
            ("timestamp", .value (.str s.now)),
            ("version", .value (.str "2.0.0")),
            ("environment", .value (environment env)),
            ("database", .descriptor dbHealth) ]) }⟩

/-- Lines 82-99: the handler of `GET /api`. -/
def apiInfo (_req : Request) : Handled :=
  ⟨[], .respond
    { status := 200
      body := some (.object
        [ ("name", .value (.str "Task Board API")),
          ("version", .value (.str "2.0.0")),
          ("description", .value (.str "ENGSE207 Week 7 - Cloud Deployment (Railway)")),
          ("endpoints", .object
            [ ("health", .value (.str "GET /api/health")),
              ("tasks", .object
                [ ("list", .value (.str "GET /api/tasks")),
                  ("get", .value (.str "GET /api/tasks/:id")),
                  ("create", .value (.str "POST /api/tasks")),
                  ("update", .value (.str "PUT /api/tasks/:id")),
                  ("delete", .value (.str "DELETE /api/tasks/:id")),
                  ("stats", .value (.str "GET /api/tasks/stats")) ]) ]) ]) }⟩

/-- Lines 113-115: the catch-all middleware. -/
def notFound (_req : Request) : Handled :=
  ⟨[], .respond { status := 404, body := some (.object [("error", .value (.str "Not Found"))]) }⟩

/-- Lines 117-120: the error-handling middleware. -/
def errorResponder (err : JSError) (_req : Request) : Handled :=
  ⟨[.consoleError [.str err.stack]],
    .respond
      { status := 500
        body := some (.object
          [ ("error", .value (.str "Internal Server Error")),
            ("message", .value (.str err.message)) ]) }⟩

/-- An entry of the middleware stack. -/
inductive Layer
  /-- A middleware or route `(req, res, next)` guarded by its path and method match. -/
  | handle (applies : Request → Bool) (fn : Request → Handled)
  /-- An error-handling middleware `(err, req, res, next)`. -/
  | handleError (fn : JSError → Request → Handled)

/-- Lines 53-120: the stack built by the `app.use` and `app.get` calls, in order. -/
def app (x : Express) (env : ProcessEnv) (s : Services) : List Layer :=
  [ .handle (fun _ => true) (cors corsOptions.origin),
    .handle (fun _ => true) (bodyParser x.json),
    .handle (fun _ => true) (bodyParser x.urlencoded),
    .handle (fun _ => true) morgan,
    .handle (x.matchesGet "/api/health") (healthHandler env s),
    .handle (x.matchesGet "/api") apiInfo,
    .handle (x.matchesMount "/api/tasks") s.taskRoutes,
    .handle (fun _ => true) notFound,
    .handleError errorResponder ]

/-- The result of serving a request: the effects performed and the response sent, if any. -/
structure Served where
  effects : List Effect
  response : Option Response

/-- Put the effects of a handler ahead of what the rest of the stack does. -/
def Served.after (effects : List Effect) (s : Served) : Served :=
  ⟨effects ++ s.effects, s.response⟩

/-- Express dispatch over the stack: without a pending error the matching ordinary layers
run in order, with a pending error only the error handlers run. -/
def dispatch (x : Express) : List Layer → Option JSError → Request → Served
  | [], err, req => ⟨[], some (x.finalhandler err req)⟩
  | .handle _ _ :: rest, some e, req => dispatch x rest (some e) req
  | .handleError _ :: rest, none, req => dispatch x rest none req
  | .handle applies fn :: rest, none, req =>
    if applies req then
      match (fn req).outcome with
      | .respond r => ⟨(fn req).effects, some r⟩
      | .next => (dispatch x rest none req).after (fn req).effects
      | .error e => (dispatch x rest (some e) req).after (fn req).effects
      | .rejected e =>
        if x.forwardsRejections then (dispatch x rest (some e) req).after (fn req).effects
        else ⟨(fn req).effects, none⟩
      | .pending => ⟨(fn req).effects, none⟩
    else dispatch x rest none req
  | .handleError fn :: rest, some err, req =>
    match (fn err req).outcome with
    | .respond r => ⟨(fn err req).effects, some r⟩
    | .next => (dispatch x rest none req).after (fn err req).effects
    | .error e => (dispatch x rest (some e) req).after (fn err req).effects
    | .rejected e =>
      if x.forwardsRejections then (dispatch x rest (some e) req).after (fn err req).effects
      else ⟨(fn err req).effects, none⟩
    | .pending => ⟨(fn err req).effects, none⟩

/-- Serving one request with the application. -/
def serve (x : Express) (env : ProcessEnv) (s : Services) (req : Request) : Served :=
  dispatch x (app x env s) none req

/-! ## The startup state machine -/

/-- The states of the startup orchestration. -/
inductive Phase
  | PROBING
  | RETRY_WAIT
  | LISTENING
  /-- Outside the three states: `app.listen` returned and the bind then failed, so nothing
  is bound and no retry is pending. -/
  | DOWN
  deriving DecidableEq, Repr

/-- The process during startup. -/
structure Startup where
  phase : Phase
  /-- The number of invocations of `startServer` so far. -/
  probes : Nat
  /-- Milliseconds spent waiting on timers. -/
  clock : Nat
  /-- The delay of the pending `setTimeout(startServer, delay)`, if one is pending. -/
  timer : Option Nat
  /-- The calls of `app.listen`, by their arguments, that left a listener bound. -/
  bound : List (JSValue × String)
  /-- Every effect so far, in order. -/
  effects : List Effect

/-- Line 154: the module calls `startServer()` when loaded. -/
def Startup.init : Startup :=
  { phase := .PROBING, probes := 0, clock := 0, timer := none, bound := [], effects := [] }

/-- One step of the machine; `w i` is what the collaborators do during invocation `i`
of `startServer`. In PROBING the invocation runs: a scheduled retry leads to RETRY_WAIT, a
returned call of `app.listen` leads to LISTENING when the bind succeeds and to DOWN when
it fails. In RETRY_WAIT the pending timer fires. LISTENING and DOWN have no step. -/
def step (env : ProcessEnv) (w : Nat → World) (s : Startup) : Option Startup :=
  match s.phase with
  | .PROBING =>
    let r := startServer env (w s.probes)
    match r.result, calls r.effects, retries r.effects with
    | .ok _, _ :: _, [] =>
      match (w s.probes).listen with
      | .listening =>
        some { phase := .LISTENING, probes := s.probes + 1, clock := s.clock, timer := none,
               bound := s.bound ++ bound (w s.probes) r.effects,
               effects := s.effects ++ r.effects }
      | _ =>
        some { phase := .DOWN, probes := s.probes + 1, clock := s.clock, timer := none,
               bound := s.bound, effects := s.effects ++ r.effects }
    | .ok _, [], delay :: _ =>
      some { phase := .RETRY_WAIT, probes := s.probes + 1, clock := s.clock,
             timer := some delay, bound := s.bound, effects := s.effects ++ r.effects }
    | _, _, _ => none
  | .RETRY_WAIT =>
    match s.timer with
    | some delay =>
      some { phase := .PROBING, probes := s.probes, clock := s.clock + delay, timer := none,
             bound := s.bound, effects := s.effects }
    | none => none
  | .LISTENING => none
  | .DOWN => none

/-- The state after at most `k` steps (fewer when no step is left). -/
def run (env : ProcessEnv) (w : Nat → World) : Nat → Startup → Startup
  | 0, s => s
  | k + 1, s =>
    match step env w s with
    | none => s
    | some s' => run env w k s'

/-- The collaborators when probe `i` returns the descriptor `probe i` and a call of
`app.listen` during invocation `i` does `listen i`. -/
def worlds (probe : Nat → HealthStatus) (listen : Nat → Listen) (i : Nat) : World :=
  { healthCheck := .ok (probe i), listen := listen i }

/-- The response a handler sends, if it sends one. -/
def Handled.response? (h : Handled) : Option Response :=
  match h.outcome with
  | .respond r => some r
  | _ => none

/-- The keys of the JSON body of a response. -/
def Response.keys (r : Response) : List String :=
  match r.body with
  | some j => j.keys
  | none => []

/-- Property lookup in the JSON body of a response. -/
def Response.get? (r : Response) (k : String) : Option JSON :=
  r.body.bind fun j => j.get? k

/-- Lines 133-135: the effects of an invocation of `startServer` whose probe returns an
unhealthy descriptor `d`. -/
def unhealthyEffects (d : HealthStatus) : List Effect :=
  [ .consoleError [.str "❌ Database connection failed:", d.error],
    .consoleLog [.str "⏳ Waiting for database... (Retry in 5s)"],
    .setTimeout .startServer 5000 ]

/-- The effects of `k` consecutive unhealthy invocations, probes `0` to `k - 1`. -/
def retryTrace (probe : Nat → HealthStatus) : Nat → List Effect
  | 0 => []
  | k + 1 => retryTrace probe k ++ unhealthyEffects (probe k)

/-! ## Concrete inputs used by the examples -/

/-- A healthy descriptor. -/
def Example.healthy : HealthStatus :=
  { status := .str "healthy", database := .str "postgresql", error := .undefined }

/-- An unhealthy descriptor. -/
def Example.unhealthy : HealthStatus :=
  { status := .str "unhealthy", database := .str "postgresql",
    error := .str "connect ECONNREFUSED 127.0.0.1:5432" }

/-- The error `app.listen` raises for the port string `70000`, outside the valid range. -/
def Example.badPort : JSError :=
  { message := "options.port should be >= 0 and < 65536. Received type string (\x2770000\x27).",
    stack := "RangeError [ERR_SOCKET_BAD_PORT]" }

/-- A rejection of the health probe. -/
def Example.probeDown : JSError :=
  { message := "Connection terminated unexpectedly", stack := "Error: Connection terminated" }

/-- An environment that sets no variable. -/
def Example.env : ProcessEnv := { PORT := none, NODE_ENV := none }

/-- An environment whose port is out of range. -/
def Example.envBadPort : ProcessEnv := { PORT := some "70000", NODE_ENV := none }

/-- An `app.listen` that, given the port of `Example.envBadPort`, raises at every call: the
synchronous check depends on the arguments only. -/
def Example.alwaysThrows (_i : Nat) : Listen := .throws Example.badPort

/-- A simplified instance of the `express` behaviour, used at the three example requests
only: routes match on the exact method and path, mounts on the path or on what starts
with the path and a slash, and the body parsers raise nothing. -/
def Example.express (forwardsRejections : Bool) : Express :=
  { forwardsRejections := forwardsRejections
    matchesGet := fun path req => (req.method == "GET" || req.method == "HEAD") && req.url == path
    matchesMount := fun path req =>
      req.url == path || (path ++ "/").data.isPrefixOf req.url.data
    json := fun _ => none
    urlencoded := fun _ => none
    finalhandler := fun err _ => ⟨if err.isSome then 500 else 404, none⟩ }

/-- A task router none of whose routes matches. -/
def Example.noTasks (_req : Request) : Handled := ⟨[], .next⟩

/-- The collaborators of a request, with the given probe outcome. -/
def Example.services (probe : Except JSError HealthStatus) : Services :=
  { healthCheck := probe, now := "2026-01-01T00:00:00.000Z", taskRoutes := Example.noTasks }

/-- The request `OPTIONS /api/unknown` of a browser preflight. -/
def Example.optionsUnknown : Request :=
  { method := "OPTIONS", url := "/api/unknown",
    headers := [("origin", "http://evil.example")], body := "" }

/-- The request `GET /api/unknown`. -/
def Example.getUnknown : Request :=
  { method := "GET", url := "/api/unknown", headers := [], body := "" }

/-- The request `GET /api/health`. -/
def Example.getHealth : Request :=
  { method := "GET", url := "/api/health", headers := [], body := "" }

/-- Probe results that are healthy from the first probe on. -/
def Example.allHealthy (_i : Nat) : HealthStatus := Example.healthy

/-- Probe results whose first healthy one is at index 2. -/
def Example.healthyFromTwo (i : Nat) : HealthStatus :=
  if i < 2 then Example.unhealthy else Example.healthy

/-- An `app.listen` that returns and binds at every call. -/
def Example.alwaysListening (_i : Nat) : Listen := .listening

/-! ## Startup: one invocation -/

/-- An unhealthy probe logs twice, schedules one retry and returns. -/
theorem startServer_unhealthy (env : ProcessEnv) (w : World) (d : HealthStatus)
    (hp : w.healthCheck = .ok d) (hd : d.status ≠ .str "healthy") :
    startServer env w =
      ⟨.ok (), [ .consoleError [.str "❌ Database connection failed:", d.error],
                 .consoleLog [.str "⏳ Waiting for database... (Retry in 5s)"],
                 .setTimeout .startServer 5000 ]⟩ := by
  simp [startServer, Run.tryCatch, Run.await, Run.emit, bind, Run.bind, hp, hd]

/-- A healthy probe followed by a call of `app.listen` that returns: the call is the only
effect. -/
theorem startServer_healthy_returns (env : ProcessEnv) (w : World) (d : HealthStatus)
    (hp : w.healthCheck = .ok d) (hd : d.status = .str "healthy")
    (hl : w.listen.raises = false) :
    startServer env w = ⟨.ok (), [.listen (PORT env) "0.0.0.0" (onListening env d)]⟩ := by
  cases hw : w.listen with
  | throws e => simp [hw, Listen.raises] at hl
  | listening =>
    simp [startServer, Run.tryCatch, Run.await, Run.emit, Run.call, bind, Run.bind, hp, hd, hw]
  | errorEvent e =>
    simp [startServer, Run.tryCatch, Run.await, Run.emit, Run.call, bind, Run.bind, hp, hd, hw]

/-- A healthy probe followed by a call of `app.listen` that raises is caught and retried. -/
theorem startServer_listen_throws (env : ProcessEnv) (w : World) (d : HealthStatus)
    (e : JSError) (hp : w.healthCheck = .ok d) (hd : d.status = .str "healthy")
    (hl : w.listen = .throws e) :
    startServer env w =
      ⟨.ok (), [ .consoleError [.str "❌ Failed to start server:", .str e.message],
                 .setTimeout .startServer 5000 ]⟩ := by
  simp [startServer, Run.tryCatch, Run.await, Run.emit, Run.call, bind, Run.bind, hp, hd, hl]

/-- A probe that rejects is caught and retried. -/
theorem startServer_probe_raises (env : ProcessEnv) (w : World) (e : JSError)
    (hp : w.healthCheck = .error e) :
    startServer env w =
      ⟨.ok (), [ .consoleError [.str "❌ Failed to start server:", .str e.message],
                 .setTimeout .startServer 5000 ]⟩ := by
  simp [startServer, Run.tryCatch, Run.await, Run.emit, bind, Run.bind, hp]

/-- C1 (amended): for every probe result `d`, and provided the bind does not fail after
`app.listen` has returned, one run of `startServer` returns without raising, and it leaves
the listener bound exactly when `d.status` is the string `healthy` and the call of
`app.listen` does not raise; when it binds, it does so through one call of `app.listen`
with the arguments `PORT` and `0.0.0.0`, and it schedules no retry; when it does not bind,
it schedules exactly one retry of `startServer`, with delay 5000 ms. -/
theorem startServer_binds_iff_healthy_and_listen_ok (env : ProcessEnv) (d : HealthStatus)
    (l : Listen) (hl : ∀ e, l ≠ .errorEvent e) :
    (startServer env ⟨.ok d, l⟩).result = .ok () ∧
    bound ⟨.ok d, l⟩ (startServer env ⟨.ok d, l⟩).effects =
      (if d.status = .str "healthy" ∧ l.raises = false then [(PORT env, "0.0.0.0")]
        else []) ∧
    retries (startServer env ⟨.ok d, l⟩).effects =
      (if d.status = .str "healthy" ∧ l.raises = false then [] else [5000]) := by
  by_cases hd : d.status = .str "healthy"
  · cases l with
    | listening =>
      rw [startServer_healthy_returns env ⟨.ok d, .listening⟩ d rfl hd rfl]
      simp [bound, calls, retries, hd, Listen.raises]
    | throws e =>
      rw [startServer_listen_throws env ⟨.ok d, .throws e⟩ d e rfl hd rfl]
      simp [bound, retries, Listen.raises]
    | errorEvent e => exact absurd rfl (hl e)
  · rw [startServer_unhealthy env ⟨.ok d, l⟩ d rfl hd]
    cases l <;> simp [bound, calls, retries, hd]

/-- C1 (witness): a healthy probe and a call of `app.listen` that returns and binds. -/
theorem startServer_binds_iff_healthy_and_listen_ok_witness :
    (startServer Example.env ⟨.ok Example.healthy, .listening⟩).result = .ok () ∧
    bound ⟨.ok Example.healthy, .listening⟩
        (startServer Example.env ⟨.ok Example.healthy, .listening⟩).effects =
      (if Example.healthy.status = .str "healthy" ∧ Listen.listening.raises = false then
        [(PORT Example.env, "0.0.0.0")] else []) ∧
    retries (startServer Example.env ⟨.ok Example.healthy, .listening⟩).effects =
      (if Example.healthy.status = .str "healthy" ∧ Listen.listening.raises = false then []
        else [5000]) :=
  startServer_binds_iff_healthy_and_listen_ok Example.env Example.healthy .listening
    (fun _ h => Listen.noConfusion h)

/-- C1 (counterexample): the probe result is healthy, yet the call of `app.listen` raises
(the port `70000` is out of range), so the run binds nothing and schedules a retry. -/
theorem startServer_healthy_without_bind :
    Example.healthy.status = .str "healthy" ∧
    bound ⟨.ok Example.healthy, .throws Example.badPort⟩
      (startServer Example.envBadPort ⟨.ok Example.healthy, .throws Example.badPort⟩).effects
      = [] ∧
    calls
      (startServer Example.envBadPort ⟨.ok Example.healthy, .throws Example.badPort⟩).effects
      = [] ∧
    retries
      (startServer Example.envBadPort ⟨.ok Example.healthy, .throws Example.badPort⟩).effects
      = [5000] := by
  rw [startServer_listen_throws Example.envBadPort _ Example.healthy Example.badPort rfl rfl rfl]
  exact ⟨rfl, rfl, rfl, rfl⟩

/-- C3: whenever the health probe rejects with `e`, or the probe is healthy and the call of
`app.listen` raises `e`, the run of `startServer` returns normally (nothing escapes), logs
the failure with `console.error` and the message of `e`, and schedules exactly one retry of
`startServer` after 5000 ms; it performs no other effect, so no call of `app.listen`
returned and nothing is bound. -/
theorem startServer_failure_caught_and_retried (env : ProcessEnv) (w : World) (e : JSError)
    (h : w.healthCheck = .error e ∨
      ∃ d, w.healthCheck = .ok d ∧ d.status = .str "healthy" ∧ w.listen = .throws e) :
    (startServer env w).result = .ok () ∧
    (startServer env w).effects =
      [ .consoleError [.str "❌ Failed to start server:", .str e.message],
        .setTimeout .startServer 5000 ] ∧
    retries (startServer env w).effects = [5000] ∧
    calls (startServer env w).effects = [] ∧
    bound w (startServer env w).effects = [] := by
  have key : startServer env w =
      ⟨.ok (), [ .consoleError [.str "❌ Failed to start server:", .str e.message],
                 .setTimeout .startServer 5000 ]⟩ := by
    rcases h with hp | ⟨d, hp, hd, hl⟩
    · exact startServer_probe_raises env w e hp
    · exact startServer_listen_throws env w d e hp hd hl
  rw [key]
  refine ⟨rfl, rfl, rfl, rfl, ?_⟩
  unfold bound
  cases w.listen <;> rfl

/-- C3 (witness): a rejected probe. -/
theorem startServer_failure_caught_and_retried_witness :
    (startServer Example.env ⟨.error Example.probeDown, .listening⟩).result = .ok () ∧
    (startServer Example.env ⟨.error Example.probeDown, .listening⟩).effects =
      [ .consoleError [.str "❌ Failed to start server:", .str Example.probeDown.message],
        .setTimeout .startServer 5000 ] ∧
    retries (startServer Example.env ⟨.error Example.probeDown, .listening⟩).effects
      = [5000] ∧
    calls (startServer Example.env ⟨.error Example.probeDown, .listening⟩).effects = [] ∧
    bound ⟨.error Example.probeDown, .listening⟩
      (startServer Example.env ⟨.error Example.probeDown, .listening⟩).effects = [] :=
  startServer_failure_caught_and_retried Example.env ⟨.error Example.probeDown, .listening⟩
    Example.probeDown (Or.inl rfl)

/-! ## Origin policy -/

/-- The regular expression test `/literal$/.test(s)` holds exactly for the strings that
end with the literal. -/
theorem regExpTest_iff_suffix (literal s : String) :
    regExpTest literal s = true ↔ literal.data <:+ s.data := by
  unfold regExpTest
  rw [List.any_eq_true]
  constructor
  · rintro ⟨i, _, hi⟩
    have h : s.data.drop i = literal.data := by simpa using hi
    rw [← h]
    exact List.drop_suffix i s.data
  · rintro ⟨t, ht⟩
    refine ⟨t.length, ?_, ?_⟩
    · rw [List.mem_range, ← ht, List.length_append]
      omega
    · rw [← ht, List.drop_left]
      simp

/-- The allow-list test of the code agrees with the allow-list of the specification. -/
theorem isAllowed_iff (origin : String) :
    isAllowed origin = true ↔ Spec.MatchesAllowList origin := by
  unfold isAllowed allowedOrigins Spec.MatchesAllowList
  simp only [List.any_cons, List.any_nil, Bool.or_false, Bool.or_eq_true, beq_iff_eq,
    regExpTest_iff_suffix]
  constructor <;> intro h <;>
    rcases h with h | h | h | h | h <;> simp [h]

/-- The origin function calls its callback once, permitting. -/
theorem callbacks_origin (origin : Option String) :
    callbacks (corsOptions.origin origin) = [(none, true)] := by
  unfold corsOptions.origin
  cases origin with
  | none => simp [envVar, JSValue.truthy, callbacks]
  | some o =>
    by_cases h1 : (envVar (some o)).truthy = true
    · by_cases h2 : isAllowed o = true <;> simp [h1, h2, callbacks]
    · simp [h1, callbacks]

/-- C5: for every declared origin, absent or any string, the origin function calls its
callback exactly once, with no error and the decision `true`. -/
theorem origin_always_permitted (origin : Option String) :
    callbacks (corsOptions.origin origin) = [(none, true)] :=
  callbacks_origin origin

/-- C10: the origin function emits its diagnostic line exactly when the origin is present,
non-empty and does not match the allow-list of the specification (four literal origins, or
the suffix `.railway.app`); then its effects are that one `console.log` followed by the
permitting callback, and in every other case the permitting callback is the only effect. -/
theorem origin_logs_iff_present_and_unlisted (origin : Option String) :
    (logs (corsOptions.origin origin) ≠ [] ↔
      ∃ o, origin = some o ∧ o ≠ "" ∧ ¬ Spec.MatchesAllowList o) ∧
    (corsOptions.origin origin = [.callback none true] ∨
      ∃ o, origin = some o ∧ corsOptions.origin origin =
        [ .consoleLog [.str "⚠️ CORS Warning (Development): Allow blocked origin:", .str o],
          .callback none true ]) := by
  unfold corsOptions.origin
  cases origin with
  | none => simp [envVar, JSValue.truthy, logs]
  | some o =>
    by_cases h1 : o = ""
    · simp [envVar, JSValue.truthy, h1, logs]
    · by_cases h2 : isAllowed o = true
      · have h3 := (isAllowed_iff o).1 h2
        simp [envVar, JSValue.truthy, h1, h2, h3, logs]
      · have h3 : ¬ Spec.MatchesAllowList o := fun h => h2 ((isAllowed_iff o).2 h)
        simp [envVar, JSValue.truthy, h1, h2, h3, logs]

/-! ## HTTP surface -/

/-- The CORS middleware answers an `OPTIONS` request itself, with 204 and no JSON body. -/
theorem cors_preflight (req : Request) (h : req.method = "OPTIONS") :
    (cors corsOptions.origin req).outcome = .respond ⟨204, none⟩ := by
  unfold cors
  simp only [callbacks_origin, h]
  rfl

/-- The CORS middleware passes every other request on. -/
theorem cors_passes (req : Request) (h : req.method ≠ "OPTIONS") :
    (cors corsOptions.origin req).outcome = .next := by
  unfold cors
  simp [callbacks_origin, h]

/-- C4: for every probe result `d`, the handler of `GET /api/health` responds; the status
is 200 and the body status `healthy` when `d.status` is the string `healthy`, and 503 and
`unhealthy` otherwise; in both cases the body has the keys status, timestamp, version,
environment, database, the version is `2.0.0` and the database field is `d` itself. -/
theorem health_response (env : ProcessEnv) (d : HealthStatus) (now : String)
    (tasks : Request → Handled) (req : Request) :
    ∃ r, (healthHandler env ⟨.ok d, now, tasks⟩ req).outcome = .respond r ∧
      r.status = (if d.status = .str "healthy" then 200 else 503) ∧
      r.get? "status" =
        some (.value (.str (if d.status = .str "healthy" then "healthy" else "unhealthy"))) ∧
      r.keys = ["status", "timestamp", "version", "environment", "database"] ∧
      r.get? "version" = some (.value (.str "2.0.0")) ∧
      r.get? "database" = some (.descriptor d) := by
  refine ⟨_, rfl, ?_, ?_, rfl, ?_, ?_⟩
  · by_cases h : d.status = .str "healthy" <;> simp [h]
  · by_cases h : d.status = .str "healthy" <;> simp [h, Response.get?, JSON.get?]
  · simp [Response.get?, JSON.get?]
  · simp [Response.get?, JSON.get?]

/-- C7: for every error `err`, the error responder answers 500 with a JSON body of exactly
two keys, `error` equal to `Internal Server Error` and `message` equal to `err.message`;
the stack goes to `console.error` only. -/
theorem error_response (err : JSError) (req : Request) :
    ∃ r, (errorResponder err req).outcome = .respond r ∧
      r.status = 500 ∧
      r.body = some (.object [ ("error", .value (.str "Internal Server Error")),
                               ("message", .value (.str err.message)) ]) ∧
      r.keys = ["error", "message"] ∧
      (errorResponder err req).effects = [.consoleError [.str err.stack]] :=
  ⟨_, rfl, rfl, rfl, rfl, rfl⟩

/-- C6 (amended): every request, of any method other than `OPTIONS`, on which the body
parsers raise no error and which is matched neither by `GET /api/health`, nor by
`GET /api`, nor by the task router mounted at `/api/tasks` (the mount does not match, or
the router passes the request on), is answered 404 with the JSON body
`{error: "Not Found"}`. -/
theorem unmatched_is_not_found (x : Express) (env : ProcessEnv) (s : Services) (req : Request)
    (hm : req.method ≠ "OPTIONS") (hj : x.json req = none) (hu : x.urlencoded req = none)
    (hh : x.matchesGet "/api/health" req = false) (ha : x.matchesGet "/api" req = false)
    (ht : x.matchesMount "/api/tasks" req = false ∨ (s.taskRoutes req).outcome = .next) :
    ∃ r, (serve x env s req).response = some r ∧ r.status = 404 ∧
      r.body = some (.object [("error", .value (.str "Not Found"))]) := by
  refine ⟨⟨404, some (.object [("error", .value (.str "Not Found"))])⟩, ?_, rfl, rfl⟩
  have hc := cors_passes req hm
  rcases ht with ht | ht
  · simp [serve, app, dispatch, Served.after, hc, bodyParser, hj, hu, morgan, hh, ha, ht,
      notFound]
  · by_cases hmt : x.matchesMount "/api/tasks" req = true
    · simp [serve, app, dispatch, Served.after, hc, bodyParser, hj, hu, morgan, hh, ha, ht,
        hmt, notFound]
    · simp [serve, app, dispatch, Served.after, hc, bodyParser, hj, hu, morgan, hh, ha, hmt,
        notFound]

/-- C6 (witness): the request `GET /api/unknown`. -/
theorem unmatched_is_not_found_witness :
    ∃ r, (serve (Example.express false) Example.env (Example.services (.ok Example.healthy))
        Example.getUnknown).response = some r ∧ r.status = 404 ∧
      r.body = some (.object [("error", .value (.str "Not Found"))]) :=
  unmatched_is_not_found (Example.express false) Example.env
    (Example.services (.ok Example.healthy)) Example.getUnknown
    (by decide) rfl rfl (by decide) (by decide) (Or.inl (by decide))

/-- C6 (counterexample): the request `OPTIONS /api/unknown` is matched by none of the
routes, and the CORS middleware answers it 204 without a JSON body. -/
theorem options_unknown_is_not_404 :
    (Example.express false).matchesGet "/api/health" Example.optionsUnknown = false ∧
    (Example.express false).matchesGet "/api" Example.optionsUnknown = false ∧
    (Example.express false).matchesMount "/api/tasks" Example.optionsUnknown = false ∧
    ((serve (Example.express false) Example.env (Example.services (.ok Example.healthy))
        Example.optionsUnknown).response.map Response.status) = some 204 ∧
    ((serve (Example.express false) Example.env (Example.services (.ok Example.healthy))
        Example.optionsUnknown).response.map Response.keys) = some [] := by
  have hc := cors_preflight Example.optionsUnknown rfl
  refine ⟨by decide, by decide, by decide, ?_, ?_⟩
  · simp [serve, app, dispatch, hc]
  · simp [serve, app, dispatch, hc, Response.keys]

/-- A request that reaches the health handler while the probe rejects with `e`: an Express
that forwards rejections lets the error responder answer 500, otherwise nothing is sent. -/
theorem serve_health_rejected (x : Express) (env : ProcessEnv) (s : Services) (req : Request)
    (e : JSError) (hm : req.method ≠ "OPTIONS") (hj : x.json req = none)
    (hu : x.urlencoded req = none) (hh : x.matchesGet "/api/health" req = true)
    (hp : s.healthCheck = .error e) :
    (serve x env s req).response =
      (if x.forwardsRejections then
        some ⟨500, some (.object [ ("error", .value (.str "Internal Server Error")),
                                   ("message", .value (.str e.message)) ])⟩
      else none) := by
  have hc := cors_passes req hm
  by_cases hf : x.forwardsRejections = true
  · simp [serve, app, dispatch, Served.after, hc, bodyParser, hj, hu, morgan, hh, healthHandler,
      hp, hf, errorResponder]
  · simp [serve, app, dispatch, Served.after, hc, bodyParser, hj, hu, morgan, hh, healthHandler,
      hp, hf]

/-- C8 (the code at the failing input): when `healthCheck` rejects with `e` during
`GET /api/health`, the handler sends nothing; with an Express that forwards rejections the
error responder answers 500, otherwise no response is sent; in neither case is it 503. -/
theorem health_probe_rejection_not_503 (forwards : Bool) (env : ProcessEnv) (e : JSError) :
    (healthHandler env (Example.services (.error e)) Example.getHealth).response? = none ∧
    ((serve (Example.express forwards) env (Example.services (.error e))
        Example.getHealth).response.map Response.status)
      = (if forwards then some 500 else none) ∧
    ((serve (Example.express forwards) env (Example.services (.error e))
        Example.getHealth).response.map Response.status) ≠ some 503 := by
  have key := serve_health_rejected (Example.express forwards) env
    (Example.services (.error e)) Example.getHealth e (by decide) rfl rfl
    (by cases forwards <;> decide) rfl
  have hf : (Example.express forwards).forwardsRejections = forwards := rfl
  rw [hf] at key
  rw [key]
  refine ⟨rfl, ?_, ?_⟩ <;> cases forwards <;> simp

/-- C9 (amended): the 404 of the catch-all and the 500 of the error responder each carry a
JSON body with an `error` key; the response of the health endpoint, 503 included, has the
keys status, timestamp, version, environment, database and no `error` key. -/
theorem failure_bodies (env : ProcessEnv) (d : HealthStatus) (now : String)
    (tasks : Request → Handled) (err : JSError) (req : Request) :
    ((notFound req).response?.map Response.status = some 404 ∧
      (notFound req).response?.map (fun r => decide ("error" ∈ r.keys)) = some true) ∧
    ((errorResponder err req).response?.map Response.status = some 500 ∧
      (errorResponder err req).response?.map (fun r => decide ("error" ∈ r.keys)) = some true) ∧
    ((healthHandler env ⟨.ok d, now, tasks⟩ req).response?.map Response.status
        = some (if d.status = .str "healthy" then 200 else 503) ∧
      (healthHandler env ⟨.ok d, now, tasks⟩ req).response?.map Response.keys
        = some ["status", "timestamp", "version", "environment", "database"] ∧
      (healthHandler env ⟨.ok d, now, tasks⟩ req).response?.map
        (fun r => decide ("error" ∈ r.keys)) = some false) := by
  refine ⟨⟨rfl, ?_⟩, ⟨rfl, ?_⟩, ?_, rfl, ?_⟩
  · simp [notFound, Handled.response?, Response.keys, JSON.keys]
  · simp [errorResponder, Handled.response?, Response.keys, JSON.keys]
  · by_cases h : d.status = .str "healthy" <;> simp [healthHandler, Handled.response?, h]
  · simp [healthHandler, Handled.response?, Response.keys, JSON.keys]

/-- C9 (counterexample): with an unhealthy probe the health endpoint answers 503, a failure
response, and its JSON body has no `error` key. -/
theorem health_503_has_no_error_key :
    (healthHandler Example.env (Example.services (.ok Example.unhealthy))
        Example.getHealth).response?.map Response.status = some 503 ∧
    (healthHandler Example.env (Example.services (.ok Example.unhealthy))
        Example.getHealth).response?.map Response.keys
      = some ["status", "timestamp", "version", "environment", "database"] ∧
    (healthHandler Example.env (Example.services (.ok Example.unhealthy))
        Example.getHealth).response?.map (fun r => decide ("error" ∈ r.keys)) = some false := by
  refine ⟨?_, rfl, ?_⟩
  · simp [healthHandler, Handled.response?, Example.services, Example.unhealthy]
  · simp [healthHandler, Handled.response?, Example.services, Response.keys, JSON.keys]

/-! ## The startup state machine -/

/-- The calls of a concatenation. -/
theorem calls_append (a b : List Effect) : calls (a ++ b) = calls a ++ calls b := by
  induction a with
  | nil => rfl
  | cons e a ih => cases e <;> simp [calls, ih]

/-- The retries of a concatenation. -/
theorem retries_append (a b : List Effect) : retries (a ++ b) = retries a ++ retries b := by
  induction a with
  | nil => rfl
  | cons e a ih =>
    cases e with
    | setTimeout cb delay => cases cb; simp [retries, ih]
    | _ => simp [retries, ih]

/-- Unhealthy invocations never call `app.listen`. -/
theorem calls_retryTrace (probe : Nat → HealthStatus) (k : Nat) :
    calls (retryTrace probe k) = [] := by
  induction k with
  | zero => rfl
  | succ k ih => simp [retryTrace, calls_append, ih, unhealthyEffects, calls]

/-- Each unhealthy invocation schedules one retry of 5000 ms. -/
theorem retries_retryTrace (probe : Nat → HealthStatus) (k : Nat) :
    retries (retryTrace probe k) = List.replicate k 5000 := by
  induction k with
  | zero => rfl
  | succ k ih =>
    simp [retryTrace, retries_append, ih, unhealthyEffects, retries, List.replicate_succ']

/-- PROBING with an unhealthy probe moves to RETRY_WAIT with a timer of 5000 ms. -/
theorem step_probing_unhealthy (env : ProcessEnv) (probe : Nat → HealthStatus)
    (listen : Nat → Listen) (s : Startup) (hs : s.phase = .PROBING)
    (hd : (probe s.probes).status ≠ .str "healthy") :
    step env (worlds probe listen) s =
      some { phase := .RETRY_WAIT, probes := s.probes + 1, clock := s.clock,
             timer := some 5000, bound := s.bound,
             effects := s.effects ++ unhealthyEffects (probe s.probes) } := by
  unfold step
  rw [hs]
  simp only
  rw [startServer_unhealthy env (worlds probe listen s.probes) (probe s.probes) rfl hd]
  rfl

/-- PROBING with a healthy probe and a call of `app.listen` that returns and binds moves to
LISTENING. -/
theorem step_probing_healthy (env : ProcessEnv) (probe : Nat → HealthStatus)
    (listen : Nat → Listen) (s : Startup) (hs : s.phase = .PROBING)
    (hd : (probe s.probes).status = .str "healthy") (hl : listen s.probes = .listening) :
    step env (worlds probe listen) s =
      some { phase := .LISTENING, probes := s.probes + 1, clock := s.clock, timer := none,
             bound := s.bound ++ [(PORT env, "0.0.0.0")],
             effects := s.effects ++
               [.listen (PORT env) "0.0.0.0" (onListening env (probe s.probes))] } := by
  have hw : (worlds probe listen s.probes).listen = .listening := hl
  unfold step
  rw [hs]
  simp only
  rw [startServer_healthy_returns env (worlds probe listen s.probes) (probe s.probes) rfl hd
    (by rw [hw]; rfl)]
  simp [calls, retries, bound, hw]

/-- Running is additive in the number of steps. -/
theorem run_add (env : ProcessEnv) (w : Nat → World) (a b : Nat) (s : Startup) :
    run env w (a + b) s = run env w b (run env w a s) := by
  induction a generalizing s with
  | zero => simp [run]
  | succ a ih =>
    rw [Nat.succ_add]
    cases h : step env w s with
    | none =>
      have hb : run env w b s = s := by
        cases b with
        | zero => rfl
        | succ b => simp [run, h]
      simp [run, h, hb]
    | some s' => simp [run, h, ih]

/-- A state without a step stays as it is. -/
theorem run_of_step_none (env : ProcessEnv) (w : Nat → World) (k : Nat) (s : Startup)
    (h : step env w s = none) : run env w k s = s := by
  cases k with
  | zero => rfl
  | succ k => simp [run, h]

/-- A step followed by `k` steps. -/
theorem run_succ_of_step (env : ProcessEnv) (w : Nat → World) (k : Nat) (s s' : Startup)
    (h : step env w s = some s') : run env w (k + 1) s = run env w k s' := by
  simp [run, h]

/-- After `k` unhealthy probes and `2 * k` steps the machine is PROBING again. -/
theorem run_unhealthy_even (env : ProcessEnv) (probe : Nat → HealthStatus)
    (listen : Nat → Listen) (k : Nat)
    (hun : ∀ i, i < k → (probe i).status ≠ .str "healthy") :
    run env (worlds probe listen) (2 * k) Startup.init =
      { phase := .PROBING, probes := k, clock := 5000 * k, timer := none, bound := [],
        effects := retryTrace probe k } := by
  induction k with
  | zero => rfl
  | succ k ih =>
    have h1 := ih (fun i hi => hun i (Nat.lt_succ_of_lt hi))
    have h2 : 2 * (k + 1) = 2 * k + 2 := by ring
    rw [h2, run_add, h1]
    have hd := hun k (Nat.lt_succ_self k)
    have hs := step_probing_unhealthy env probe listen
      { phase := .PROBING, probes := k, clock := 5000 * k, timer := none, bound := [],
        effects := retryTrace probe k } rfl hd
    rw [run_succ_of_step env _ 1 _ _ hs]
    show ({ phase := .PROBING, probes := k + 1, clock := 5000 * k + 5000, timer := none,
            bound := [],
            effects := retryTrace probe k ++ unhealthyEffects (probe k) } : Startup) = _
    simp only [retryTrace, Startup.mk.injEq, true_and, and_true]
    ring

/-- After `k + 1` unhealthy probes and `2 * k + 1` steps the machine is in RETRY_WAIT. -/
theorem run_unhealthy_odd (env : ProcessEnv) (probe : Nat → HealthStatus)
    (listen : Nat → Listen) (k : Nat)
    (hun : ∀ i, i < k + 1 → (probe i).status ≠ .str "healthy") :
    run env (worlds probe listen) (2 * k + 1) Startup.init =
      { phase := .RETRY_WAIT, probes := k + 1, clock := 5000 * k, timer := some 5000,
        bound := [], effects := retryTrace probe (k + 1) } := by
  rw [run_add, run_unhealthy_even env probe listen k (fun i hi => hun i (Nat.lt_succ_of_lt hi))]
  have hs := step_probing_unhealthy env probe listen
    { phase := .PROBING, probes := k, clock := 5000 * k, timer := none, bound := [],
      effects := retryTrace probe k } rfl (hun k (Nat.lt_succ_self k))
  rw [run_succ_of_step env _ 0 _ _ hs]
  rfl

/-- After `n` unhealthy probes, a healthy one and a call of `app.listen` that returns and
binds, `2 * n + 1` steps reach LISTENING. -/
theorem run_first_healthy (env : ProcessEnv) (probe : Nat → HealthStatus)
    (listen : Nat → Listen) (n : Nat)
    (hun : ∀ i, i < n → (probe i).status ≠ .str "healthy")
    (hn : (probe n).status = .str "healthy") (hl : listen n = .listening) :
    run env (worlds probe listen) (2 * n + 1) Startup.init =
      { phase := .LISTENING, probes := n + 1, clock := 5000 * n, timer := none,
        bound := [(PORT env, "0.0.0.0")],
        effects := retryTrace probe n ++
          [.listen (PORT env) "0.0.0.0" (onListening env (probe n))] } := by
  rw [run_add, run_unhealthy_even env probe listen n hun]
  have hs := step_probing_healthy env probe listen
    { phase := .PROBING, probes := n, clock := 5000 * n, timer := none, bound := [],
      effects := retryTrace probe n } rfl hn hl
  rw [run_succ_of_step env _ 0 _ _ hs]
  rfl

/-- C2 (amended): let the first healthy probe result be at index `n`, all earlier ones being
unhealthy, and let the call of `app.listen` made during invocation `n` return and its bind
succeed. Then through the first `2 * n` steps `app.listen` is not called, nothing is bound
and LISTENING is not reached; step `2 * n + 1` reaches LISTENING with the listener bound
exactly once, through `app.listen` called once with `PORT` and `0.0.0.0`; exactly `n`
retries were scheduled, each of 5000 ms, the time waited is `5000 * n` ms, and `n + 1`
probes ran; LISTENING has no further step, so no later probe or retry occurs. -/
theorem startup_binds_once_after_n_retries (env : ProcessEnv) (probe : Nat → HealthStatus)
    (listen : Nat → Listen) (n : Nat)
    (hun : ∀ i, i < n → (probe i).status ≠ .str "healthy")
    (hn : (probe n).status = .str "healthy") (hl : listen n = .listening) :
    (∀ k, k ≤ 2 * n →
      (run env (worlds probe listen) k Startup.init).bound = [] ∧
      calls (run env (worlds probe listen) k Startup.init).effects = [] ∧
      (run env (worlds probe listen) k Startup.init).phase ≠ .LISTENING) ∧
    (run env (worlds probe listen) (2 * n + 1) Startup.init).phase = .LISTENING ∧
    (run env (worlds probe listen) (2 * n + 1) Startup.init).bound
      = [(PORT env, "0.0.0.0")] ∧
    calls (run env (worlds probe listen) (2 * n + 1) Startup.init).effects
      = [(PORT env, "0.0.0.0")] ∧
    retries (run env (worlds probe listen) (2 * n + 1) Startup.init).effects
      = List.replicate n 5000 ∧
    (run env (worlds probe listen) (2 * n + 1) Startup.init).clock = 5000 * n ∧
    (run env (worlds probe listen) (2 * n + 1) Startup.init).probes = n + 1 ∧
    step env (worlds probe listen) (run env (worlds probe listen) (2 * n + 1) Startup.init)
      = none ∧
    ∀ k, 2 * n + 1 ≤ k →
      run env (worlds probe listen) k Startup.init
        = run env (worlds probe listen) (2 * n + 1) Startup.init := by
  have hfin := run_first_healthy env probe listen n hun hn hl
  have hstop : step env (worlds probe listen)
      (run env (worlds probe listen) (2 * n + 1) Startup.init) = none := by
    rw [hfin]
    rfl
  refine ⟨?_, ?_, ?_, ?_, ?_, ?_, ?_, hstop, ?_⟩
  · intro k hk
    rcases Nat.even_or_odd' k with ⟨j, hj | hj⟩
    · have hjn : j ≤ n := by omega
      rw [hj, run_unhealthy_even env probe listen j (fun i hi => hun i (by omega))]
      exact ⟨rfl, calls_retryTrace probe j, by simp⟩
    · have hjn : j + 1 ≤ n := by omega
      rw [hj, run_unhealthy_odd env probe listen j (fun i hi => hun i (by omega))]
      exact ⟨rfl, calls_retryTrace probe (j + 1), by simp⟩
  · rw [hfin]
  · rw [hfin]
  · rw [hfin]
    simp [calls_append, calls_retryTrace, calls]
  · rw [hfin]
    simp [retries_append, retries_retryTrace, retries]
  · rw [hfin]
  · rw [hfin]
  · intro k hk
    obtain ⟨m, rfl⟩ := Nat.exists_eq_add_of_le hk
    rw [run_add, run_of_step_none env _ m _ hstop]

/-- C2 (witness): two unhealthy probes, then a healthy one: LISTENING after five steps, one
bind, two retries of 5000 ms, 10000 ms waited, three probes. -/
theorem startup_binds_once_after_n_retries_witness :
    (run Example.env (worlds Example.healthyFromTwo Example.alwaysListening) 5
      Startup.init).phase = .LISTENING ∧
    (run Example.env (worlds Example.healthyFromTwo Example.alwaysListening) 5
      Startup.init).bound = [(PORT Example.env, "0.0.0.0")] ∧
    calls (run Example.env (worlds Example.healthyFromTwo Example.alwaysListening) 5
      Startup.init).effects = [(PORT Example.env, "0.0.0.0")] ∧
    retries (run Example.env (worlds Example.healthyFromTwo Example.alwaysListening) 5
      Startup.init).effects = [5000, 5000] ∧
    (run Example.env (worlds Example.healthyFromTwo Example.alwaysListening) 5
      Startup.init).clock = 10000 ∧
    (run Example.env (worlds Example.healthyFromTwo Example.alwaysListening) 5
      Startup.init).probes = 3 :=
  have h := startup_binds_once_after_n_retries Example.env Example.healthyFromTwo
    Example.alwaysListening 2 (by decide) (by decide) rfl
  ⟨h.2.1, h.2.2.1, h.2.2.2.1, h.2.2.2.2.1, h.2.2.2.2.2.1, h.2.2.2.2.2.2.1⟩

/-- C2 (counterexample): with the port `70000` every call of `app.listen` raises. The first
healthy probe result is at index 0, yet after the first step the machine is in RETRY_WAIT
with one retry scheduled and nothing bound; after seven steps four probes have run, four
retries have been scheduled, and still nothing is bound. -/
theorem startup_bad_port_never_binds :
    (Example.allHealthy 0).status = .str "healthy" ∧
    (run Example.envBadPort (worlds Example.allHealthy Example.alwaysThrows) 1
      Startup.init).phase = .RETRY_WAIT ∧
    retries (run Example.envBadPort (worlds Example.allHealthy Example.alwaysThrows) 1
      Startup.init).effects = [5000] ∧
    (run Example.envBadPort (worlds Example.allHealthy Example.alwaysThrows) 1
      Startup.init).bound = [] ∧
    (run Example.envBadPort (worlds Example.allHealthy Example.alwaysThrows) 7
      Startup.init).phase = .RETRY_WAIT ∧
    (run Example.envBadPort (worlds Example.allHealthy Example.alwaysThrows) 7
      Startup.init).probes = 4 ∧
    retries (run Example.envBadPort (worlds Example.allHealthy Example.alwaysThrows) 7
      Startup.init).effects = [5000, 5000, 5000, 5000] ∧
    (run Example.envBadPort (worlds Example.allHealthy Example.alwaysThrows) 7
      Startup.init).bound = [] := by
  refine ⟨rfl, ?_, ?_, ?_, ?_, ?_, ?_, ?_⟩ <;> rfl

end TaskBoard
